import Mathlib

/-!
Verification of the column-selector builder in
`src/py-polars/polars/functions/col.py` (`ColumnFactory.__call__` and
`ColumnFactory.__getattr__`).

The builder receives a primary argument (a string, a polars data type, an
iterable of either, or anything else) plus a tuple of extra positional
arguments, and dispatches to one of three native engine constructors
(`plr.col`, `plr.cols`, `plr.dtype_cols`) or raises `TypeError`.

We embed Python runtime values as the inductive `PyValue`, the three native
constructor calls as `EngineCall`, and the raised `TypeError` as a structured
`TypeErr` recording the expected category and the observed type name
(the classification reported in the message; exact message wording is a
non-goal of the specification).
-/

/-- Polars data types, a closed sample sufficient for the dispatch logic
(the dispatch never inspects which data type it is, only that
`is_polars_dtype` holds). -/
inductive DType
  | Int64
  | Float64
  | Utf8
  | Boolean
  deriving DecidableEq, Repr

/-- A Python runtime value as seen by `ColumnFactory.__call__`: a `str`, a
polars data type, a materialized iterable (list), or a non-iterable scalar of
some other type (`int`, `None`) used to exercise the error branches. -/
inductive PyValue
  | str (s : String)
  | dtype (d : DType)
  | list (xs : List PyValue)
  | int (n : Int)
  | pyNone

/-- Python `type(x).__name__`, as interpolated into the error messages. -/
def PyValue.typeName : PyValue → String
  | .str _ => "str"
  | .dtype .Int64 => "Int64"
  | .dtype .Float64 => "Float64"
  | .dtype .Utf8 => "Utf8"
  | .dtype .Boolean => "Boolean"
  | .list _ => "list"
  | .int _ => "int"
  | .pyNone => "NoneType"

/-- The guard `isinstance(x, str)`. -/
def PyValue.isStr : PyValue → Bool
  | .str _ => true
  | _ => false

/-- The guard `is_polars_dtype(x)`. -/
def PyValue.isDType : PyValue → Bool
  | .dtype _ => true
  | _ => false

/-- The guard `isinstance(x, Iterable)`; note that a Python `str` is itself
iterable, though `__call__` tests `isinstance(name, str)` first. -/
def PyValue.isIterable : PyValue → Bool
  | .str _ => true
  | .list _ => true
  | _ => false

/-- The expected-category part of the two `TypeError` messages raised by
`__call__`: either `Expected str or DataType` (lines 196 and 222 of
col.py) or `Expected iterable of type str or DataType` (line 216). -/
inductive ExpectedCategory
  | strOrDType
  | iterOfStrOrDType
  deriving DecidableEq, Repr

/-- The `TypeError` raised by `__call__`: the expected category together with
the observed classification `type(x).__name__` reported in the message. -/
structure TypeErr where
  expected : ExpectedCategory
  got : String
  deriving DecidableEq, Repr

/-- The three native engine constructors the wrapper forwards to:
`plr.col(name)` for a single name, `plr.cols(names)` for a list of names,
and `plr.dtype_cols(dtypes)` for a list of data types. The lists hold the
raw Python values the code passes through without re-validation. -/
inductive EngineCall
  | col (name : String)
  | cols (names : List PyValue)
  | dtype_cols (dtypes : List PyValue)

/-- Model of `ColumnFactory.__call__(name, *more_names)`, translated branch by branch
from col.py lines 184-223:

* `more_names` non-empty: a `str` primary prepends itself to `more_names`
  and calls `plr.cols`; a data-type primary does the same with
  `plr.dtype_cols`; anything else raises `TypeError` reporting
  `type(name).__name__`.
* `more_names` empty: a `str` goes to `plr.col`; a data type to
  `plr.dtype_cols([name])`; an iterable is materialized — if empty it goes
  to `plr.cols([])`, otherwise the first element alone decides between
  `plr.cols` (str) and `plr.dtype_cols` (data type), and anything else
  raises `TypeError` reporting the first element's type; a non-iterable
  non-str non-dtype primary raises `TypeError` reporting its type. -/
def ColumnFactory.call (name : PyValue) (more_names : List PyValue) :
    Except TypeErr EngineCall :=
  match more_names with
  | _ :: _ =>
    match name with
    | .str s => .ok (.cols (PyValue.str s :: more_names))
    | .dtype d => .ok (.dtype_cols (PyValue.dtype d :: more_names))
    | _ => .error ⟨.strOrDType, name.typeName⟩
  | [] =>
    match name with
    | .str s => .ok (.col s)
    | .dtype d => .ok (.dtype_cols [PyValue.dtype d])
    | .list xs =>
      match xs with
      | [] => .ok (.cols [])
      | item :: _ =>
        match item with
        | .str _ => .ok (.cols xs)
        | .dtype _ => .ok (.dtype_cols xs)
        | _ => .error ⟨.iterOfStrOrDType, item.typeName⟩
    | _ => .error ⟨.strOrDType, name.typeName⟩

/-- Model of `ColumnFactory.__getattr__(name)`, col.py line 258: unconditionally
`plr.col(name)`. -/
def ColumnFactory.byAttribute (name : String) : EngineCall :=
  .col name

/-- The canonical selector of the specification's data model: an ordered
sequence of names (`ByName`) or of data types (`ByType`). Wildcard and
pattern strings are not tagged eagerly, matching the deferring policy the
source follows. -/
inductive ColumnSelector
  | ByName (names : List PyValue)
  | ByType (types : List PyValue)

/-- Modelled from the spec: the engine-boundary dispatch (spec section 6) of
the native module `plr`, which is not part of the given source. `plr.col(s)`
and `plr.cols(ns)` both construct a name selector (`constructNameSelector`),
with `plr.col(s)` carrying the single-element sequence `[s]`;
`plr.dtype_cols(ds)` constructs a type selector (`constructTypeSelector`). -/
def EngineCall.toSelector : EngineCall → ColumnSelector
  | .col s => .ByName [PyValue.str s]
  | .cols ns => .ByName ns
  | .dtype_cols ds => .ByType ds

/-- Modelled from the spec: the name sequence with which the engine-boundary
dispatch invokes `constructNameSelector`, when it does (spec section 6);
`none` for type selectors, which go through `constructTypeSelector`. -/
def EngineCall.nameSelectorArgs : EngineCall → Option (List PyValue)
  | .col s => some [PyValue.str s]
  | .cols ns => some ns
  | .dtype_cols _ => none

/-- C1: for every non-empty sequence of strings `S` (written `s :: rest`),
calling the builder with `S[0]` as primary and the rest as extra positional
arguments, and calling it with `S` as a single iterable, both succeed and
yield the same selector `ByName(S)` with identical element order — also when
`S` has exactly one element (where the engine calls differ, `plr.col` versus
`plr.cols`, but denote the same `ByName`). -/
theorem call_string_seq_positional_eq_iterable (s : String) (rest : List String) :
    ∃ e1 e2 : EngineCall,
      ColumnFactory.call (.str s) (rest.map PyValue.str) = .ok e1 ∧
      ColumnFactory.call (.list ((s :: rest).map PyValue.str)) [] = .ok e2 ∧
      e1.toSelector = ColumnSelector.ByName ((s :: rest).map PyValue.str) ∧
      e2.toSelector = ColumnSelector.ByName ((s :: rest).map PyValue.str) := by
  cases rest with
  | nil => exact ⟨.col s, .cols [PyValue.str s], rfl, rfl, rfl, rfl⟩
  | cons r rs =>
      exact ⟨.cols ((s :: r :: rs).map PyValue.str),
        .cols ((s :: r :: rs).map PyValue.str), rfl, rfl, rfl, rfl⟩

/-- C2: for every string primary and every non-empty list of extra positional
arguments, the builder returns the `plr.cols` call on the primary name
followed by the extra items in the order given (duplicates preserved, as the
list is passed through unchanged), denoting `ByName` of that sequence. -/
theorem call_string_with_extras_byName (s : String) (m : PyValue) (ms : List PyValue) :
    ColumnFactory.call (.str s) (m :: ms) =
      .ok (.cols (PyValue.str s :: m :: ms)) ∧
    (EngineCall.cols (PyValue.str s :: m :: ms)).toSelector =
      ColumnSelector.ByName (PyValue.str s :: m :: ms) :=
  ⟨rfl, rfl⟩

/-- C3: for every non-empty sequence of data types `T` (written `d :: rest`),
calling the builder with `T[0]` as primary and the rest as extra positional
arguments, and calling it with `T` as a single iterable whose first element
is a data type, both succeed and yield `ByType(T)` with identical element
order. -/
theorem call_dtype_seq_positional_eq_iterable (d : DType) (rest : List DType) :
    ∃ e1 e2 : EngineCall,
      ColumnFactory.call (.dtype d) (rest.map PyValue.dtype) = .ok e1 ∧
      ColumnFactory.call (.list ((d :: rest).map PyValue.dtype)) [] = .ok e2 ∧
      e1.toSelector = ColumnSelector.ByType ((d :: rest).map PyValue.dtype) ∧
      e2.toSelector = ColumnSelector.ByType ((d :: rest).map PyValue.dtype) := by
  cases rest with
  | nil => exact ⟨.dtype_cols [PyValue.dtype d], .dtype_cols [PyValue.dtype d],
      rfl, rfl, rfl, rfl⟩
  | cons r rs =>
      exact ⟨.dtype_cols ((d :: r :: rs).map PyValue.dtype),
        .dtype_cols ((d :: r :: rs).map PyValue.dtype), rfl, rfl, rfl, rfl⟩

/-- C4: calling the builder with an empty iterable as sole argument succeeds
(never raises) and returns `plr.cols([])`, the selector `ByName([])`
matching nothing. -/
theorem call_empty_iterable_byName_nil :
    ColumnFactory.call (.list []) [] = .ok (.cols []) ∧
    (EngineCall.cols []).toSelector = ColumnSelector.ByName [] :=
  ⟨rfl, rfl⟩

/-- C5: the single string `"*"` with no extras follows exactly the same
path as every other single-string input: the builder produces `plr.col(s)`,
which the engine-boundary dispatch maps through `constructNameSelector`
with the single-element sequence `[s]` — in particular `["*"]` — with no
eager wildcard tagging. -/
theorem call_wildcard_string_nameSelector :
    ColumnFactory.call (.str "*") [] = .ok (.col "*") ∧
    (EngineCall.col "*").nameSelectorArgs = some [PyValue.str "*"] ∧
    ∀ s : String, ∃ e : EngineCall,
      ColumnFactory.call (.str s) [] = .ok e ∧
      e.nameSelectorArgs = some [PyValue.str s] :=
  ⟨rfl, rfl, fun s => ⟨.col s, rfl, rfl⟩⟩

/-- C6: for every string name, the attribute-style entry point produces
exactly the same engine call as invoking the builder with that single string
and no extras: both are `plr.col(name)`, the selector `ByName([name])`, with
no data-type, iterable, wildcard or pattern interpretation on the attribute
path. -/
theorem byAttribute_eq_call_single_string (name : String) :
    Except.ok (ε := TypeErr) (ColumnFactory.byAttribute name) =
      ColumnFactory.call (.str name) [] ∧
    (ColumnFactory.byAttribute name).toSelector =
      ColumnSelector.ByName [PyValue.str name] :=
  ⟨rfl, rfl⟩

/-- C7: whenever at least one extra positional argument is supplied and the
primary is neither a plain string nor a plain data type — in particular when
it is an iterable such as a list — the builder raises `TypeError` expecting
a string or data type and reporting the primary's observed type, producing
no selector. -/
theorem call_extras_invalid_primary_error (name m : PyValue) (ms : List PyValue)
    (h1 : name.isStr = false) (h2 : name.isDType = false) :
    ColumnFactory.call name (m :: ms) =
      .error ⟨.strOrDType, name.typeName⟩ := by
  cases name with
  | str s => simp [PyValue.isStr] at h1
  | dtype d => simp [PyValue.isDType] at h2
  | list xs => rfl
  | int n => rfl
  | pyNone => rfl

/-- Witness for C7: a list primary combined with an extra argument is
rejected with the observed classification `list`. -/
theorem call_extras_invalid_primary_error_witness :
    ColumnFactory.call (.list [.str "a"]) [.str "b"] =
      .error ⟨.strOrDType, "list"⟩ :=
  call_extras_invalid_primary_error (.list [.str "a"]) (.str "b") [] rfl rfl

/-- C8: for every non-empty iterable passed as the sole argument whose first
element is neither a string nor a data type, the builder raises `TypeError`
expecting an iterable of strings or data types and reporting the first
element's observed type. -/
theorem call_iterable_bad_first_element_error (x : PyValue) (xs : List PyValue)
    (h1 : x.isStr = false) (h2 : x.isDType = false) :
    ColumnFactory.call (.list (x :: xs)) [] =
      .error ⟨.iterOfStrOrDType, x.typeName⟩ := by
  cases x with
  | str s => simp [PyValue.isStr] at h1
  | dtype d => simp [PyValue.isDType] at h2
  | list ys => rfl
  | int n => rfl
  | pyNone => rfl

/-- Witness for C8: an iterable whose first element is the integer `1` is
rejected, with the error reporting the classification `int`. -/
theorem call_iterable_bad_first_element_error_witness :
    ColumnFactory.call (.list [.int 1, .str "a"]) [] =
      .error ⟨.iterOfStrOrDType, "int"⟩ :=
  call_iterable_bad_first_element_error (.int 1) [.str "a"] rfl rfl

/-- C9: for every primary that is not a string, not a data type and not an
iterable, passed with no extra arguments, the builder raises `TypeError`
expecting a string or data type and reporting the primary's observed type. -/
theorem call_scalar_invalid_primary_error (name : PyValue)
    (h1 : name.isStr = false) (h2 : name.isDType = false)
    (h3 : name.isIterable = false) :
    ColumnFactory.call name [] = .error ⟨.strOrDType, name.typeName⟩ := by
  cases name with
  | str s => simp [PyValue.isStr] at h1
  | dtype d => simp [PyValue.isDType] at h2
  | list xs => simp [PyValue.isIterable] at h3
  | int n => rfl
  | pyNone => rfl

/-- Witness for C9: a single integer `42` as primary with no extras is
rejected, with the error reporting the classification `int`. -/
theorem call_scalar_invalid_primary_error_witness :
    ColumnFactory.call (.int 42) [] = .error ⟨.strOrDType, "int"⟩ :=
  call_scalar_invalid_primary_error (.int 42) rfl rfl rfl

/-- C10: homogeneity is decided solely by the primary or the first element:
a string (resp. data-type) primary with arbitrary extras yields `plr.cols`
(resp. `plr.dtype_cols`) on the full sequence, and an iterable whose first
element is a string (resp. data type) yields `plr.cols` (resp.
`plr.dtype_cols`) on the full materialized sequence — the later elements
`ms`, `xs` are arbitrary values never inspected, so no error is raised at
this layer whatever their category. -/
theorem call_homogeneity_first_element_only (s a : String) (d b : DType)
    (m : PyValue) (ms xs : List PyValue) :
    ColumnFactory.call (.str s) (m :: ms) =
      .ok (.cols (PyValue.str s :: m :: ms)) ∧
    ColumnFactory.call (.dtype d) (m :: ms) =
      .ok (.dtype_cols (PyValue.dtype d :: m :: ms)) ∧
    ColumnFactory.call (.list (PyValue.str a :: xs)) [] =
      .ok (.cols (PyValue.str a :: xs)) ∧
    ColumnFactory.call (.list (PyValue.dtype b :: xs)) [] =
      .ok (.dtype_cols (PyValue.dtype b :: xs)) :=
  ⟨rfl, rfl, rfl, rfl⟩
